import Mathlib

/-!
Verification of the event classification and dispatch subsystem of
`evdev/events.py`: the `InputEvent` record, the four classifier classes
(`KeyEvent`, `RelEvent`, `AbsEvent`, `SynEvent`), the `event_factory`
dispatch table and the `categorize` consumer.

The name tables (`keys`, `REL`, `ABS`, `SYN` from `evdev.ecodes`) and the
`categorize` function (`evdev.util`) are external collaborators not present
in the sources; they are modelled from the spec where noted.
-/

namespace Evdev

/-- A generic input event, mirroring the `input_event` struct: seconds and
microseconds of the timestamp (unsigned), event type and code (unsigned
16-bit) and a signed 32-bit value.  Fields keep the source's names. -/
structure InputEvent where
  sec : Nat
  usec : Nat
  type : Nat
  code : Nat
  value : Int
deriving DecidableEq

/-- The event categories handled by the four classifier classes. -/
inductive Category where
  | key
  | rel
  | abs
  | syn
deriving DecidableEq

/-- The single error kind of classifier construction: the Python `KeyError`
raised by a missed name-table lookup, carrying the unresolved code; the
category records which classifier's table missed. -/
inductive Err where
  | codeNotFound (category : Category) (code : Nat)
deriving DecidableEq

/-- A name table for the rel, abs and syn categories: a read-only mapping
from code to name.  Modelled from the spec: the tables `REL`, `ABS`, `SYN`
live in `evdev.ecodes`, which is not part of the sources. -/
def NameTable : Type := Nat → Option String

/-- Modelled from the spec: the key-name table `keys` of `evdev.ecodes`
(not part of the sources) may map one code to several aliases; the mapping
is represented as the first registered alias together with the later ones,
and lookup resolves to the first registered alias. -/
def KeyTable : Type := Nat → Option (String × List String)

/-- Pad a string with leading zeros to a minimum width, as Python's
zero-padded format specifiers do for nonnegative numbers. -/
def zfill (w : Nat) (s : String) : String :=
  if w ≤ s.length then s else String.mk (List.replicate (w - s.length) '0') ++ s

/-- An uppercase hexadecimal digit. -/
def hexDigit (n : Nat) : Char :=
  if n < 10 then Char.ofNat (48 + n) else Char.ofNat (55 + n)

/-- Hexadecimal digits of `n`, most significant first (fuel-driven). -/
def toHexAux : Nat → Nat → List Char
  | 0, _ => []
  | fuel + 1, n =>
    if n = 0 then [] else toHexAux fuel (n / 16) ++ [hexDigit (n % 16)]

/-- Uppercase hexadecimal representation of a natural number, as produced
by Python's `X` format type. -/
def toHexUpper (n : Nat) : String :=
  if n = 0 then "0" else String.mk (toHexAux (n + 1) n)

/-- Python's `'{:02d}'` on a nonnegative integer: decimal, zero-padded to a
minimum width of 2. -/
def format02d (n : Nat) : String := zfill 2 (toString n)

/-- Python's `'{:02d}'` on a signed integer: the sign counts towards the
minimum width of 2, so the magnitude is padded to width 1 when negative. -/
def format02dInt (i : Int) : String :=
  if i < 0 then "-" ++ zfill 1 (toString i.natAbs) else zfill 2 (toString i.natAbs)

/-- Python's `'0x{:02X}'` fallback keycode: uppercase hexadecimal
zero-padded to a minimum width of 2, prefixed with `0x`. -/
def hexKeycode (code : Nat) : String := "0x" ++ zfill 2 (toHexUpper code)

/-- `InputEvent.timestamp`: `self.sec + (self.usec / 1000000.0)`.  The
floating-point arithmetic is modelled exactly, over the rationals. -/
def InputEvent.timestamp (e : InputEvent) : ℚ :=
  (e.sec : ℚ) + (e.usec : ℚ) / 1000000

/-- The fixed-point rendering `'{:f}'.format(self.timestamp())` (six
decimal places), computed exactly on the integer pair: the timestamp's
value in microseconds, split at the decimal point. -/
def InputEvent.timestampStr (e : InputEvent) : String :=
  let total := e.sec * 1000000 + e.usec
  toString (total / 1000000) ++ "." ++ zfill 6 (toString (total % 1000000))

/-- `InputEvent.__str__`:
`'event at {:f}, code {:02d}, type {:02d}, val {:02d}'` applied to the
timestamp, code, type and value, in that order. -/
def InputEvent.str (e : InputEvent) : String :=
  "event at " ++ e.timestampStr ++ ", code " ++ format02d e.code ++
    ", type " ++ format02d e.type ++ ", val " ++ format02dInt e.value

/-- `KeyEvent`: scancode, resolved keycode, the keystate slot (set only
for values 0, 1, 2 — `none` models the slot never being assigned) and the
wrapped event. -/
structure KeyEvent where
  scancode : Nat
  keycode : String
  keystate : Option Nat
  event : InputEvent
deriving DecidableEq

/-- `KeyEvent.key_up = 0x0`. -/
def KeyEvent.key_up : Nat := 0x0

/-- `KeyEvent.key_down = 0x1`. -/
def KeyEvent.key_down : Nat := 0x1

/-- `KeyEvent.key_hold = 0x2`. -/
def KeyEvent.key_hold : Nat := 0x2

/-- Default of the `allow_unknown` parameter of `KeyEvent.__init__`. -/
def KeyEvent.allow_unknown_default : Bool := false

/-- The keystate slot as assigned by the if-chain of `KeyEvent.__init__`,
which checks the values 0, 2, 1 in that order and assigns nothing for any
other value (`none` models the slot never being assigned). -/
def keystateOf (value : Int) : Option Nat :=
  if value = 0 then some KeyEvent.key_up
  else if value = 2 then some KeyEvent.key_hold
  else if value = 1 then some KeyEvent.key_down
  else none

/-- `KeyEvent.__init__`: sets the keystate slot for values 0, 2, 1 (in the
source's order of checks), then looks `event.code` up in `keys`; on a miss
it falls back to the hex keycode when `allow_unknown` is true and re-raises
the `KeyError` otherwise. -/
def KeyEvent.make (keys : KeyTable) (event : InputEvent) (allow_unknown : Bool) :
    Except Err KeyEvent :=
  match keys event.code with
  | some aliases => Except.ok ⟨event.code, aliases.1, keystateOf event.value, event⟩
  | none =>
    if allow_unknown then
      Except.ok ⟨event.code, hexKeycode event.code, keystateOf event.value, event⟩
    else
      Except.error (Err.codeNotFound Category.key event.code)

/-- `KeyEvent.__str__`: indexes `('up', 'down', 'hold')` by the keystate,
rendering `'unknown'` on an `IndexError`; an unassigned keystate slot
raises an uncaught `AttributeError`, modelled as `none`. -/
def KeyEvent.str (k : KeyEvent) : Option String :=
  match k.keystate with
  | none => none
  | some s =>
    let ks : String :=
      if s = 0 then "up" else if s = 1 then "down" else if s = 2 then "hold"
      else "unknown"
    some ("key event at " ++ k.event.timestampStr ++ ", " ++
      toString k.scancode ++ " (" ++ k.keycode ++ "), " ++ ks)

/-- `RelEvent`: resolved keycode and the wrapped event. -/
structure RelEvent where
  keycode : String
  event : InputEvent
deriving DecidableEq

/-- Default of the `allow_unknown` parameter of `RelEvent.__init__`. -/
def RelEvent.allow_unknown_default : Bool := false

/-- `RelEvent.__init__`: looks `event.code` up in `REL`; on a miss it falls
back to the hex keycode when `allow_unknown` is true and re-raises the
`KeyError` otherwise. -/
def RelEvent.make (REL : NameTable) (event : InputEvent) (allow_unknown : Bool) :
    Except Err RelEvent :=
  match REL event.code with
  | some name => Except.ok ⟨name, event⟩
  | none =>
    if allow_unknown then
      Except.ok ⟨hexKeycode event.code, event⟩
    else
      Except.error (Err.codeNotFound Category.rel event.code)

/-- `RelEvent.__str__`: `'relative axis event at {:f}, {} {} '` with the
historical trailing space. -/
def RelEvent.str (r : RelEvent) : String :=
  "relative axis event at " ++ r.event.timestampStr ++ ", " ++ r.keycode ++
    " " ++ toString r.event.value ++ " "

/-- `AbsEvent`: resolved keycode and the wrapped event. -/
structure AbsEvent where
  keycode : String
  event : InputEvent
deriving DecidableEq

/-- Default of the `allow_unknown` parameter of `AbsEvent.__init__`. -/
def AbsEvent.allow_unknown_default : Bool := false

/-- `AbsEvent.__init__`: looks `event.code` up in `ABS`; on a miss it falls
back to the hex keycode when `allow_unknown` is true and re-raises the
`KeyError` otherwise. -/
def AbsEvent.make (ABS : NameTable) (event : InputEvent) (allow_unknown : Bool) :
    Except Err AbsEvent :=
  match ABS event.code with
  | some name => Except.ok ⟨name, event⟩
  | none =>
    if allow_unknown then
      Except.ok ⟨hexKeycode event.code, event⟩
    else
      Except.error (Err.codeNotFound Category.abs event.code)

/-- `AbsEvent.__str__`: `'absolute axis event at {:f}, {} {} '` with the
historical trailing space. -/
def AbsEvent.str (a : AbsEvent) : String :=
  "absolute axis event at " ++ a.event.timestampStr ++ ", " ++ a.keycode ++
    " " ++ toString a.event.value ++ " "

/-- `SynEvent`: resolved keycode and the wrapped event. -/
structure SynEvent where
  keycode : String
  event : InputEvent
deriving DecidableEq

/-- Default of the `allow_unknown` parameter of `SynEvent.__init__`. -/
def SynEvent.allow_unknown_default : Bool := true

/-- `SynEvent.__init__`: looks `event.code` up in `SYN`; on a miss it falls
back to the hex keycode when `allow_unknown` is true and re-raises the
`KeyError` otherwise. -/
def SynEvent.make (SYN : NameTable) (event : InputEvent) (allow_unknown : Bool) :
    Except Err SynEvent :=
  match SYN event.code with
  | some name => Except.ok ⟨name, event⟩
  | none =>
    if allow_unknown then
      Except.ok ⟨hexKeycode event.code, event⟩
    else
      Except.error (Err.codeNotFound Category.syn event.code)

/-- `SynEvent.__str__`: `'synchronization event at {:f}, {} '` with the
trailing space. -/
def SynEvent.str (s : SynEvent) : String :=
  "synchronization event at " ++ s.event.timestampStr ++ ", " ++ s.keycode ++ " "

/-- Modelled from the spec: the event-type constant `EV_SYN` of
`evdev.ecodes` (not part of the sources), mirroring `linux/input.h`. -/
def EV_SYN : Nat := 0x00

/-- Modelled from the spec: the event-type constant `EV_KEY` of
`evdev.ecodes` (not part of the sources), mirroring `linux/input.h`. -/
def EV_KEY : Nat := 0x01

/-- Modelled from the spec: the event-type constant `EV_REL` of
`evdev.ecodes` (not part of the sources), mirroring `linux/input.h`. -/
def EV_REL : Nat := 0x02

/-- Modelled from the spec: the event-type constant `EV_ABS` of
`evdev.ecodes` (not part of the sources), mirroring `linux/input.h`. -/
def EV_ABS : Nat := 0x03

/-- The four name tables supplied by the external constants collaborator. -/
structure Tables where
  keys : KeyTable
  REL : NameTable
  ABS : NameTable
  SYN : NameTable

/-- The result of categorizing a raw event: either one of the four
classified variants or the raw event passed through unchanged. -/
inductive Categorized where
  | raw (event : InputEvent)
  | key (k : KeyEvent)
  | rel (r : RelEvent)
  | abs (a : AbsEvent)
  | syn (s : SynEvent)
deriving DecidableEq

/-- The `event_factory` dictionary: a mapping of event types to the
classifier constructors; each constructor is invoked with its own default
`allow_unknown` when called with the event alone. -/
def event_factory (tb : Tables) :
    List (Nat × (InputEvent → Except Err Categorized)) :=
  [ (EV_KEY, fun e => Except.map Categorized.key
      (KeyEvent.make tb.keys e KeyEvent.allow_unknown_default)),
    (EV_REL, fun e => Except.map Categorized.rel
      (RelEvent.make tb.REL e RelEvent.allow_unknown_default)),
    (EV_ABS, fun e => Except.map Categorized.abs
      (AbsEvent.make tb.ABS e AbsEvent.allow_unknown_default)),
    (EV_SYN, fun e => Except.map Categorized.syn
      (SynEvent.make tb.SYN e SynEvent.allow_unknown_default)) ]

/-- Modelled from the spec: `evdev.util.categorize` (not part of the
sources) looks `event.type` up in `event_factory`; if found it invokes the
matching classifier constructor with the event, and otherwise returns the
raw event unchanged. -/
def categorize (tb : Tables) (e : InputEvent) : Except Err Categorized :=
  match (event_factory tb).lookup e.type with
  | some f => f e
  | none => Except.ok (Categorized.raw e)

/-- A key table holding only the golden example's entry `28 → KEY_ENTER`. -/
def goldenKeys : KeyTable := fun c => if c = 28 then some (("KEY_ENTER"), []) else none

/-- An empty name table. -/
def emptyTable : NameTable := fun _ => none

/-- Tables for the golden example: only the key table is populated. -/
def goldenTables : Tables := ⟨goldenKeys, emptyTable, emptyTable, emptyTable⟩

/-- The golden example's raw event. -/
def goldenEvent : InputEvent := ⟨1337197425, 477835, EV_KEY, 28, 0⟩

/-- The golden example's event with its value replaced by 3, which is
neither 0, 1 nor 2. -/
def unknownValueEvent : InputEvent := ⟨1337197425, 477835, EV_KEY, 28, 3⟩

/-- Inversion: `KeyEvent.make` when the lookup hits. -/
theorem KeyEvent.make_key_found (kt : KeyTable) (e : InputEvent) (au : Bool)
    (a : String × List String) (h : kt e.code = some a) :
    KeyEvent.make kt e au = Except.ok ⟨e.code, a.1, keystateOf e.value, e⟩ := by
  unfold KeyEvent.make
  rw [h]

/-- Inversion: `KeyEvent.make` when the lookup misses. -/
theorem KeyEvent.make_key_missing (kt : KeyTable) (e : InputEvent) (au : Bool)
    (h : kt e.code = none) :
    KeyEvent.make kt e au =
      if au then Except.ok ⟨e.code, hexKeycode e.code, keystateOf e.value, e⟩
      else Except.error (Err.codeNotFound Category.key e.code) := by
  unfold KeyEvent.make
  rw [h]

/-- Inversion: `RelEvent.make` when the lookup hits. -/
theorem RelEvent.make_rel_found (rt : NameTable) (e : InputEvent) (au : Bool)
    (n : String) (h : rt e.code = some n) :
    RelEvent.make rt e au = Except.ok ⟨n, e⟩ := by
  unfold RelEvent.make
  rw [h]

/-- Inversion: `RelEvent.make` when the lookup misses. -/
theorem RelEvent.make_rel_missing (rt : NameTable) (e : InputEvent) (au : Bool)
    (h : rt e.code = none) :
    RelEvent.make rt e au =
      if au then Except.ok ⟨hexKeycode e.code, e⟩
      else Except.error (Err.codeNotFound Category.rel e.code) := by
  unfold RelEvent.make
  rw [h]

/-- Inversion: `AbsEvent.make` when the lookup hits. -/
theorem AbsEvent.make_abs_found (ab : NameTable) (e : InputEvent) (au : Bool)
    (n : String) (h : ab e.code = some n) :
    AbsEvent.make ab e au = Except.ok ⟨n, e⟩ := by
  unfold AbsEvent.make
  rw [h]

/-- Inversion: `AbsEvent.make` when the lookup misses. -/
theorem AbsEvent.make_abs_missing (ab : NameTable) (e : InputEvent) (au : Bool)
    (h : ab e.code = none) :
    AbsEvent.make ab e au =
      if au then Except.ok ⟨hexKeycode e.code, e⟩
      else Except.error (Err.codeNotFound Category.abs e.code) := by
  unfold AbsEvent.make
  rw [h]

/-- Inversion: `SynEvent.make` when the lookup hits. -/
theorem SynEvent.make_syn_found (st : NameTable) (e : InputEvent) (au : Bool)
    (n : String) (h : st e.code = some n) :
    SynEvent.make st e au = Except.ok ⟨n, e⟩ := by
  unfold SynEvent.make
  rw [h]

/-- Inversion: `SynEvent.make` when the lookup misses. -/
theorem SynEvent.make_syn_missing (st : NameTable) (e : InputEvent) (au : Bool)
    (h : st e.code = none) :
    SynEvent.make st e au =
      if au then Except.ok ⟨hexKeycode e.code, e⟩
      else Except.error (Err.codeNotFound Category.syn e.code) := by
  unfold SynEvent.make
  rw [h]

/-- Any successfully constructed `KeyEvent` carries the keystate derived
from the event's value by the if-chain of `KeyEvent.__init__`. -/
theorem KeyEvent.make_ok_keystate (kt : KeyTable) (e : InputEvent) (au : Bool)
    (k : KeyEvent) (h : KeyEvent.make kt e au = Except.ok k) :
    k.keystate = keystateOf e.value := by
  rcases hk : kt e.code with _ | a
  · rw [KeyEvent.make_key_missing kt e au hk] at h
    cases au
    · simp at h
    · simp at h
      rw [← h]
  · rw [KeyEvent.make_key_found kt e au a hk] at h
    simp at h
    rw [← h]

/-- C1: for every classifier and every event, if the event's code is
present in the category's name table then construction succeeds and the
keycode is the table's resolved name (for Key, the first registered
alias); if the code is absent and `allow_unknown` is true then
construction succeeds and the keycode is the uppercase hexadecimal
representation of the code, zero-padded to width 2 and prefixed with
`0x`. -/
theorem classifier_lookup_policy (kt : KeyTable) (rt ab st : NameTable)
    (e : InputEvent) (au : Bool) :
    (∀ a, kt e.code = some a →
      ∃ k, KeyEvent.make kt e au = Except.ok k ∧ k.keycode = a.1) ∧
    (kt e.code = none → au = true →
      ∃ k, KeyEvent.make kt e au = Except.ok k ∧
        k.keycode = "0x" ++ zfill 2 (toHexUpper e.code)) ∧
    (∀ n, rt e.code = some n →
      ∃ r, RelEvent.make rt e au = Except.ok r ∧ r.keycode = n) ∧
    (rt e.code = none → au = true →
      ∃ r, RelEvent.make rt e au = Except.ok r ∧
        r.keycode = "0x" ++ zfill 2 (toHexUpper e.code)) ∧
    (∀ n, ab e.code = some n →
      ∃ a, AbsEvent.make ab e au = Except.ok a ∧ a.keycode = n) ∧
    (ab e.code = none → au = true →
      ∃ a, AbsEvent.make ab e au = Except.ok a ∧
        a.keycode = "0x" ++ zfill 2 (toHexUpper e.code)) ∧
    (∀ n, st e.code = some n →
      ∃ s, SynEvent.make st e au = Except.ok s ∧ s.keycode = n) ∧
    (st e.code = none → au = true →
      ∃ s, SynEvent.make st e au = Except.ok s ∧
        s.keycode = "0x" ++ zfill 2 (toHexUpper e.code)) := by
  refine ⟨?_, ?_, ?_, ?_, ?_, ?_, ?_, ?_⟩
  · intro a h
    exact ⟨_, KeyEvent.make_key_found kt e au a h, rfl⟩
  · intro h hau
    subst hau
    exact ⟨_, by rw [KeyEvent.make_key_missing kt e true h]; rfl, rfl⟩
  · intro n h
    exact ⟨_, RelEvent.make_rel_found rt e au n h, rfl⟩
  · intro h hau
    subst hau
    exact ⟨_, by rw [RelEvent.make_rel_missing rt e true h]; rfl, rfl⟩
  · intro n h
    exact ⟨_, AbsEvent.make_abs_found ab e au n h, rfl⟩
  · intro h hau
    subst hau
    exact ⟨_, by rw [AbsEvent.make_abs_missing ab e true h]; rfl, rfl⟩
  · intro n h
    exact ⟨_, SynEvent.make_syn_found st e au n h, rfl⟩
  · intro h hau
    subst hau
    exact ⟨_, by rw [SynEvent.make_syn_missing st e true h]; rfl, rfl⟩

/-- Witness for C1: the golden key table resolves code 28, and a relative
axis lookup miss with `allow_unknown` falls back to the hex keycode. -/
theorem classifier_lookup_policy_witness :
    (∃ k, KeyEvent.make goldenKeys goldenEvent false = Except.ok k ∧
      k.keycode = "KEY_ENTER") ∧
    (∃ r, RelEvent.make emptyTable goldenEvent true = Except.ok r ∧
      r.keycode = "0x" ++ zfill 2 (toHexUpper 28)) :=
  ⟨(classifier_lookup_policy goldenKeys emptyTable emptyTable emptyTable
      goldenEvent false).1 (("KEY_ENTER"), []) rfl,
   (classifier_lookup_policy goldenKeys emptyTable emptyTable emptyTable
      goldenEvent true).2.2.2.1 rfl rfl⟩

/-- C2: for every classifier and every event, construction fails exactly
when the code is absent from the category's table and `allow_unknown` is
false, and the failure is the `CodeNotFound` error carrying the unresolved
code and the category; no other error is ever produced. -/
theorem classifier_failure_iff (kt : KeyTable) (rt ab st : NameTable)
    (e : InputEvent) (au : Bool) (err : Err) :
    (KeyEvent.make kt e au = Except.error err ↔
      kt e.code = none ∧ au = false ∧ err = Err.codeNotFound Category.key e.code) ∧
    (RelEvent.make rt e au = Except.error err ↔
      rt e.code = none ∧ au = false ∧ err = Err.codeNotFound Category.rel e.code) ∧
    (AbsEvent.make ab e au = Except.error err ↔
      ab e.code = none ∧ au = false ∧ err = Err.codeNotFound Category.abs e.code) ∧
    (SynEvent.make st e au = Except.error err ↔
      st e.code = none ∧ au = false ∧ err = Err.codeNotFound Category.syn e.code) := by
  refine ⟨?_, ?_, ?_, ?_⟩
  · rcases hk : kt e.code with _ | a
    · rw [KeyEvent.make_key_missing kt e au hk]
      cases au <;> simp [eq_comm]
    · rw [KeyEvent.make_key_found kt e au a hk]
      simp [hk]
  · rcases hr : rt e.code with _ | n
    · rw [RelEvent.make_rel_missing rt e au hr]
      cases au <;> simp [eq_comm]
    · rw [RelEvent.make_rel_found rt e au n hr]
      simp [hr]
  · rcases ha : ab e.code with _ | n
    · rw [AbsEvent.make_abs_missing ab e au ha]
      cases au <;> simp [eq_comm]
    · rw [AbsEvent.make_abs_found ab e au n ha]
      simp [ha]
  · rcases hs : st e.code with _ | n
    · rw [SynEvent.make_syn_missing st e au hs]
      cases au <;> simp [eq_comm]
    · rw [SynEvent.make_syn_found st e au n hs]
      simp [hs]

/-- Witness for C2: on the golden key table, code 5 is absent, and key
classification without `allow_unknown` fails with the key category's
`CodeNotFound` error. -/
theorem classifier_failure_iff_witness :
    KeyEvent.make goldenKeys ⟨0, 0, 1, 5, 0⟩ false =
      Except.error (Err.codeNotFound Category.key 5) :=
  ((classifier_failure_iff goldenKeys emptyTable emptyTable emptyTable
      ⟨0, 0, 1, 5, 0⟩ false (Err.codeNotFound Category.key 5)).1).2
    ⟨rfl, rfl, rfl⟩

/-- C3: for every event whose code resolves in the key table, key
classification succeeds regardless of the event's value, and the keystate
is derived from the value as 0 up, 1 down, 2 hold, with any other value
leaving the keystate unset. -/
theorem keyevent_keystate_derivation (kt : KeyTable) (e : InputEvent)
    (au : Bool) (a : String × List String) (h : kt e.code = some a) :
    ∃ k, KeyEvent.make kt e au = Except.ok k ∧
      k.keystate = (if e.value = 0 then some KeyEvent.key_up
        else if e.value = 1 then some KeyEvent.key_down
        else if e.value = 2 then some KeyEvent.key_hold
        else none) := by
  refine ⟨_, KeyEvent.make_key_found kt e au a h, ?_⟩
  show keystateOf e.value = _
  unfold keystateOf
  by_cases h0 : e.value = 0 <;> by_cases h1 : e.value = 1 <;>
    by_cases h2 : e.value = 2 <;> simp_all

/-- Witness for C3: the golden event resolves to KEY_ENTER and its value 0
derives the up keystate. -/
theorem keyevent_keystate_derivation_witness :
    ∃ k, KeyEvent.make goldenKeys goldenEvent false = Except.ok k ∧
      k.keystate = (if goldenEvent.value = 0 then some KeyEvent.key_up
        else if goldenEvent.value = 1 then some KeyEvent.key_down
        else if goldenEvent.value = 2 then some KeyEvent.key_hold
        else none) :=
  keyevent_keystate_derivation goldenKeys goldenEvent false
    (("KEY_ENTER"), []) rfl

/-- C4 (refuting the claim on the code): for the resolvable event with
value 3, key classification succeeds with the keystate slot never
assigned, and rendering the display string then fails — the unassigned
slot raises an uncaught attribute-access error — instead of producing the
"unknown" state text the claim promises. -/
theorem keyevent_unknown_value_display_error :
    KeyEvent.make goldenKeys unknownValueEvent false =
      Except.ok ⟨28, ("KEY_ENTER"), none, unknownValueEvent⟩ ∧
    KeyEvent.str ⟨28, ("KEY_ENTER"), none, unknownValueEvent⟩ = none :=
  ⟨rfl, rfl⟩

/-- C5: a raw event whose type is registered in `event_factory` is
dispatched to exactly the designated classifier, invoked with that
classifier's own default `allow_unknown`; a raw event whose type is
unregistered passes through `categorize` unchanged. -/
theorem categorize_dispatch (tb : Tables) (e : InputEvent) :
    (e.type = EV_KEY → categorize tb e =
      Except.map Categorized.key (KeyEvent.make tb.keys e false)) ∧
    (e.type = EV_REL → categorize tb e =
      Except.map Categorized.rel (RelEvent.make tb.REL e false)) ∧
    (e.type = EV_ABS → categorize tb e =
      Except.map Categorized.abs (AbsEvent.make tb.ABS e false)) ∧
    (e.type = EV_SYN → categorize tb e =
      Except.map Categorized.syn (SynEvent.make tb.SYN e true)) ∧
    (e.type ≠ EV_KEY → e.type ≠ EV_REL → e.type ≠ EV_ABS → e.type ≠ EV_SYN →
      categorize tb e = Except.ok (Categorized.raw e)) := by
  refine ⟨?_, ?_, ?_, ?_, ?_⟩
  · intro h
    simp [categorize, event_factory, List.lookup, h, EV_KEY, EV_REL, EV_ABS,
      EV_SYN, KeyEvent.allow_unknown_default]
  · intro h
    simp [categorize, event_factory, List.lookup, h, EV_KEY, EV_REL, EV_ABS,
      EV_SYN, RelEvent.allow_unknown_default]
  · intro h
    simp [categorize, event_factory, List.lookup, h, EV_KEY, EV_REL, EV_ABS,
      EV_SYN, AbsEvent.allow_unknown_default]
  · intro h
    simp [categorize, event_factory, List.lookup, h, EV_KEY, EV_REL, EV_ABS,
      EV_SYN, SynEvent.allow_unknown_default]
  · intro h1 h2 h3 h4
    have b1 : (e.type == EV_KEY) = false := by simp [h1]
    have b2 : (e.type == EV_REL) = false := by simp [h2]
    have b3 : (e.type == EV_ABS) = false := by simp [h3]
    have b4 : (e.type == EV_SYN) = false := by simp [h4]
    simp [categorize, event_factory, List.lookup, b1, b2, b3, b4]

/-- Witness for C5: the golden event dispatches to the key classifier, and
an event of the unregistered type 7 passes through unchanged. -/
theorem categorize_dispatch_witness :
    categorize goldenTables goldenEvent =
      Except.map Categorized.key (KeyEvent.make goldenKeys goldenEvent false) ∧
    categorize goldenTables ⟨5, 6, 7, 28, 0⟩ =
      Except.ok (Categorized.raw ⟨5, 6, 7, 28, 0⟩) :=
  ⟨(categorize_dispatch goldenTables goldenEvent).1 rfl,
   (categorize_dispatch goldenTables ⟨5, 6, 7, 28, 0⟩).2.2.2.2
     (by decide) (by decide) (by decide) (by decide)⟩

/-- C6: the `allow_unknown` construction parameter defaults to false for
the Key, Rel and Abs classifiers and to true for the Syn classifier. -/
theorem allow_unknown_defaults :
    KeyEvent.allow_unknown_default = false ∧
    RelEvent.allow_unknown_default = false ∧
    AbsEvent.allow_unknown_default = false ∧
    SynEvent.allow_unknown_default = true :=
  ⟨rfl, rfl, rfl, rfl⟩

/-- C7: for every event, `timestamp()` returns `sec + usec / 1000000.0`,
modelled exactly over the rationals; it is a total pure function. -/
theorem timestamp_formula (e : InputEvent) :
    e.timestamp = (e.sec : ℚ) + (e.usec : ℚ) / 1000000 := rfl

/-- C8: the golden example — categorizing the raw event
(1337197425, 477835, EV_KEY, 28, 0) against a key table mapping 28 to
KEY_ENTER yields the key variant with scancode 28, keycode KEY_ENTER and
the up keystate, and its display string is exactly
"key event at 1337197425.477835, 28 (KEY_ENTER), up". -/
theorem golden_key_event :
    categorize goldenTables goldenEvent =
      Except.ok (Categorized.key
        ⟨28, ("KEY_ENTER"), some KeyEvent.key_up, goldenEvent⟩) ∧
    KeyEvent.str ⟨28, ("KEY_ENTER"), some KeyEvent.key_up, goldenEvent⟩ =
      some ("key event at 1337197425.477835, 28 (KEY_ENTER), up") :=
  ⟨rfl, rfl⟩

/-- C9: the exact display templates — the generic event renders as
"event at {timestamp:.6f}, code {code:02d}, type {type:02d}, val
{value:02d}"; the relative and absolute axis variants render their label,
timestamp, keycode and value with a trailing space; the synchronization
variant renders its label, timestamp and keycode with a trailing space. -/
theorem display_templates (e : InputEvent) (r : RelEvent) (a : AbsEvent)
    (s : SynEvent) :
    InputEvent.str e = "event at " ++ e.timestampStr ++ ", code " ++
      format02d e.code ++ ", type " ++ format02d e.type ++ ", val " ++
      format02dInt e.value ∧
    RelEvent.str r = "relative axis event at " ++ r.event.timestampStr ++
      ", " ++ r.keycode ++ " " ++ toString r.event.value ++ " " ∧
    AbsEvent.str a = "absolute axis event at " ++ a.event.timestampStr ++
      ", " ++ a.keycode ++ " " ++ toString a.event.value ++ " " ∧
    SynEvent.str s = "synchronization event at " ++ s.event.timestampStr ++
      ", " ++ s.keycode ++ " " :=
  ⟨rfl, rfl, rfl, rfl⟩

/-- C10: whenever a constructed key event's keystate slot is assigned it
holds exactly one of key_up, key_down or key_hold, and for an event value
outside 0, 1, 2 the slot is never assigned, so rendering the display
string fails with an uncaught attribute-access error (modelled as `none`)
rather than producing an "unknown" sentinel. -/
theorem keystate_slot_invariant (kt : KeyTable) (e : InputEvent) (au : Bool)
    (k : KeyEvent) (h : KeyEvent.make kt e au = Except.ok k) :
    (∀ s, k.keystate = some s →
      s = KeyEvent.key_up ∨ s = KeyEvent.key_down ∨ s = KeyEvent.key_hold) ∧
    (e.value ≠ 0 → e.value ≠ 1 → e.value ≠ 2 →
      k.keystate = none ∧ KeyEvent.str k = none) := by
  have hks := KeyEvent.make_ok_keystate kt e au k h
  constructor
  · intro s hs
    rw [hks] at hs
    unfold keystateOf at hs
    split_ifs at hs
    all_goals first
      | exact Or.inl (Option.some.inj hs).symm
      | exact Or.inr (Or.inl (Option.some.inj hs).symm)
      | exact Or.inr (Or.inr (Option.some.inj hs).symm)
  · intro h0 h1 h2
    have hnone : k.keystate = none := by
      rw [hks]
      unfold keystateOf
      simp [h0, h1, h2]
    refine ⟨hnone, ?_⟩
    unfold KeyEvent.str
    rw [hnone]

/-- Witness for C10: the resolvable event with value 3 constructs a key
event with no keystate and a failing display rendering. -/
theorem keystate_slot_invariant_witness :
    (⟨28, ("KEY_ENTER"), none, unknownValueEvent⟩ : KeyEvent).keystate = none ∧
    KeyEvent.str ⟨28, ("KEY_ENTER"), none, unknownValueEvent⟩ = none :=
  (keystate_slot_invariant goldenKeys unknownValueEvent false
      ⟨28, ("KEY_ENTER"), none, unknownValueEvent⟩ rfl).2
    (by decide) (by decide) (by decide)

end Evdev
